import Mathlib

/-!
Shallow embedding of the response-parsing and session-state core of the
HR resume/interview analysis application (backend/service.py and
streamlit_app/{utils,app}.py).

Texts are modelled as `List Char`.  Python regular expressions of the source
are hand-translated into deterministic scanning functions: each concrete
pattern used by the source backtracks in a way that admits a deterministic
characterisation (whitespace and digit classes are disjoint, lazy groups stop
at the first position where the lookahead holds, and the MULTILINE `$`
alternative of the bullet-section lookaheads always succeeds at end of input,
so those captures extend to the end of the text).  Whitespace is the ASCII
whitespace set matched by `\s` on such texts.  The completion service is an
oracle parameter `complete : messages -> text`.
-/

namespace HRAgent

/-- ASCII whitespace, the characters matched by Python's `\s` (and stripped
by `str.strip`) on ASCII text. -/
def isSpaceChar (c : Char) : Bool :=
  c == ' ' || c == '\t' || c == '\n' || c == '\r' || c == '\x0b' || c == '\x0c'

/-- Decimal digit, Python's `\d` on ASCII text. -/
def isDigitChar (c : Char) : Bool :=
  '0' ≤ c && c ≤ '9'

/-- ASCII letter, the class `[A-Za-z]`. -/
def isLetterChar (c : Char) : Bool :=
  ('A' ≤ c && c ≤ 'Z') || ('a' ≤ c && c ≤ 'z')

/-- The character class `[A-Za-z\s\/]` of the criteria-score label pattern. -/
def inCriteriaLabelClass (c : Char) : Bool :=
  isLetterChar c || isSpaceChar c || c == '/'

/-- Python's `str.strip()`: remove leading and trailing whitespace. -/
def pyStrip (s : List Char) : List Char :=
  ((s.dropWhile isSpaceChar).reverse.dropWhile isSpaceChar).reverse

/-- Value of a string of decimal digits, Python's `int()` on a `\d+` capture. -/
def natOfDigits (ds : List Char) : Nat :=
  ds.foldl (fun a c => a * 10 + (c.toNat - 48)) 0

/-- Python's `str.split('\n')`: the empty string splits to `[""]`. -/
def splitLines : List Char → List (List Char)
  | [] => [[]]
  | c :: rest =>
    match splitLines rest with
    | [] => [[c]]
    | l :: ls => if c == '\n' then [] :: l :: ls else (c :: l) :: ls

/-- Split a line at its first colon, `None` when the line has no colon;
models `line.split(':')` with `parts[0]` and `":".join(parts[1:])`. -/
def firstColonSplit : List Char → Option (List Char × List Char)
  | [] => none
  | c :: rest =>
    if c == ':' then some ([], rest)
    else
      match firstColonSplit rest with
      | none => none
      | some (a, b) => some (c :: a, b)

/-- Python `dict` assignment `d[k] = v`: replace in place, else append. -/
def dictInsert {α : Type} (k : List Char) (v : α) :
    List (List Char × α) → List (List Char × α)
  | [] => [(k, v)]
  | (k', v') :: rest =>
    if k' == k then (k, v) :: rest else (k', v') :: dictInsert k v rest

/-- Leftmost-match search of `re.search`: try the position-matcher `p` on
every suffix from the left, return its first result. -/
def scanFirst {α : Type} (p : List Char → Option α) : List Char → Option α
  | [] => p []
  | c :: rest =>
    match p (c :: rest) with
    | some a => some a
    | none => scanFirst p rest

/-- Lazy capture `(.*?)` (DOTALL) before a lookahead: the shortest prefix
whose remaining suffix satisfies `stop`; end of input always stops.
Returns the captured prefix and the remaining suffix. -/
def lazyUntil (stop : List Char → Bool) : List Char → List Char × List Char
  | [] => ([], [])
  | c :: rest =>
    if stop (c :: rest) then ([], c :: rest)
    else
      let (g, r) := lazyUntil stop rest
      (c :: g, r)

/-- Matcher, at one position, of the pattern `<label>\s*(\d+)<denom>`
(e.g. `OVERALL_SCORE:\s*(\d+)/100`).  `\s*` and `\d+` are greedy and their
classes are disjoint, so the match is the maximal whitespace run, then the
maximal nonempty digit run, then the literal denominator. -/
def matchLabelScoreAt (label denom : List Char) (s : List Char) : Option Int :=
  if label.isPrefixOf s then
    let t := (s.drop label.length).dropWhile isSpaceChar
    let ds := t.takeWhile isDigitChar
    if ds.isEmpty then none
    else if denom.isPrefixOf (t.drop ds.length) then some (natOfDigits ds)
    else none
  else none

/-- Matcher, at a line start, of one criteria-score line
`^\s*([A-Za-z\s\/]+[A-Za-z]):\s*(\d+)/100` (service.py line 67).  Since the
whitespace class is contained in the label class and `:` is outside it, the
colon of a match is exactly the end of the maximal label-class run, whose
last character must be a letter and whose length must be at least 2; the
initial `\s*` only moves whitespace between itself and the captured label,
which the caller strips away.  Returns the raw label (whitespace prefix
included), the score, and the suffix after the match. -/
def matchCriteriaAt (s : List Char) : Option (List Char × Int × List Char) :=
  let run := s.takeWhile inCriteriaLabelClass
  if 2 ≤ run.length &&
      (match run.getLast? with | some c => isLetterChar c | none => false) then
    match s.drop run.length with
    | ':' :: after =>
      let t := after.dropWhile isSpaceChar
      let ds := t.takeWhile isDigitChar
      if !ds.isEmpty && ("/100".data.isPrefixOf (t.drop ds.length)) then
        some (run, (natOfDigits ds : Int), (t.drop ds.length).drop 4)
      else none
    | _ => none
  else none

/-- Scan of `re.findall(..., re.MULTILINE)` for the criteria pattern:
attempt the matcher at every line start (start of text or after `'\n'`),
continue after the end of each match (which ends in `'0'` of `/100`, never a
newline, so the position after a match is not a line start).  Fuel is the
input length plus one; every step consumes at least one character. -/
def criteriaScan : Nat → Bool → List Char → List (List Char × Int)
  | 0, _, _ => []
  | _ + 1, _, [] => []
  | fuel + 1, atLineStart, c :: rest =>
    if atLineStart then
      match matchCriteriaAt (c :: rest) with
      | some (label, v, rest') => (label, v) :: criteriaScan fuel false rest'
      | none => criteriaScan fuel (c == '\n') rest
    else criteriaScan fuel (c == '\n') rest

/-- The criteria-scores dictionary of `score_resume_against_jd`
(service.py lines 66-71): every `findall` result whose stripped label is not
`OVERALL_SCORE` (case-insensitively) is inserted. -/
def parseCriteriaScores (content : List Char) : List (List Char × Int) :=
  (criteriaScan (content.length + 1) true content).foldl
    (fun d lv =>
      let cleaned := pyStrip lv.1
      if cleaned.map Char.toUpper == "OVERALL_SCORE".data then d
      else dictInsert cleaned lv.2 d)
    []

/-- Lookahead `(?=\nSTRENGTHS:|\Z)` of the hard-requirements capture. -/
def hardReqStop (s : List Char) : Bool :=
  "\nSTRENGTHS:".data.isPrefixOf s

/-- Matcher, at one position, of
`HARD_REQUIREMENTS_MATCH:\s*\n((?:.|\n)*?)(?=\nSTRENGTHS:|\Z)`
(service.py line 75).  The greedy `\s*\n` consumes up to and including the
last newline of the maximal whitespace run after the header (there must be
one); the lazy group then captures until `\nSTRENGTHS:` follows or the text
ends. -/
def matchHardReqAt (s : List Char) : Option (List Char) :=
  if "HARD_REQUIREMENTS_MATCH:".data.isPrefixOf s then
    let after := s.drop 24
    let run := after.takeWhile isSpaceChar
    if run.any (fun c => c == '\n') then
      let wsTail := (run.reverse.takeWhile (fun c => !(c == '\n'))).reverse
      some (lazyUntil hardReqStop (wsTail ++ after.drop run.length)).1
    else none
  else none

/-- The hard-requirements dictionary of `score_resume_against_jd`
(service.py lines 73-84): strip the captured group, split it into lines, and
for every line containing a colon map the stripped key to the stripped
remainder after the first colon. -/
def parseHardRequirements (content : List Char) : List (List Char × List Char) :=
  match scanFirst matchHardReqAt content with
  | none => []
  | some grp =>
    (splitLines (pyStrip grp)).foldl
      (fun d line =>
        match firstColonSplit line with
        | some (k, v) => dictInsert (pyStrip k) (pyStrip v) d
        | none => d)
      []

/-- Matcher, at one position, of the strengths capture
`STRENGTHS:\s*\n((?:-\s*.*\n?)+?)(?=\n[A-Z_]+:|IMPORTANT INSTRUCTIONS:|\[END\]|$)`
with MULTILINE and DOTALL (service.py line 86).  The greedy `\s*\n` requires
the maximal whitespace run after the header to end with a newline, and the
group must begin with `-` immediately after it.  Inside the group the DOTALL
`.*` of the first iteration is greedy to the end of the text and the
MULTILINE `$` lookahead alternative succeeds there, so the capture is always
the whole remaining text. -/
def matchStrengthsAt (s : List Char) : Option (List Char) :=
  if "STRENGTHS:".data.isPrefixOf s then
    let after := s.drop 10
    let run := after.takeWhile isSpaceChar
    let rest := after.drop run.length
    if run.getLast? == some '\n' && rest.head? == some '-' then some rest
    else none
  else none

/-- The strengths text of `score_resume_against_jd` (service.py lines 86-89):
the stripped capture, or the sentinel string when the pattern is absent. -/
def parseStrengthsText (content : List Char) : List Char :=
  match scanFirst matchStrengthsAt content with
  | some g => pyStrip g
  | none => "Not explicitly found or format incorrect.".data

/-- Result dictionary of `score_resume_against_jd` (service.py lines 91-97). -/
structure ScoringResult where
  analysis_raw : List Char
  overall_score : Int
  criteria_scores : List (List Char × Int)
  hard_requirements_match : List (List Char × List Char)
  strengths_text : List Char

/-- Parsing layer of `score_resume_against_jd` (service.py lines 61-97),
applied to the completion-response text. -/
def parseScoringResponse (content : List Char) : ScoringResult :=
  { analysis_raw := content
    overall_score :=
      (scanFirst (matchLabelScoreAt "OVERALL_SCORE:".data "/100".data) content).getD 0
    criteria_scores := parseCriteriaScores content
    hard_requirements_match := parseHardRequirements content
    strengths_text := parseStrengthsText content }

/-- Lookahead `(?=\n\s*\d+[\.\)]|\n\n|\Z)` of the numbered-question pattern
(service.py line 158): a newline followed by whitespace, digits and `.` or
`)`, or a blank line, or end of input. -/
def questionStopAhead : List Char → Bool
  | [] => true
  | '\n' :: rest =>
    (match rest with
     | '\n' :: _ => true
     | _ => false) ||
    (let t := rest.dropWhile isSpaceChar
     let ds := t.takeWhile isDigitChar
     !ds.isEmpty &&
       (match t.drop ds.length with
        | '.' :: _ => true
        | ')' :: _ => true
        | _ => false))
  | _ => false

/-- Matcher, at a line start, of one numbered question
`^\s*\d+[\.\)]\s*(.*?)(?=\n\s*\d+[\.\)]|\n\n|\Z)` with DOTALL and MULTILINE
(service.py line 158): maximal whitespace, a nonempty digit run, `.` or `)`,
maximal whitespace, then the lazy capture up to the lookahead.  Returns the
raw capture and the suffix after the match (the lookahead is zero-width). -/
def matchQuestionAt (s : List Char) : Option (List Char × List Char) :=
  let t := s.dropWhile isSpaceChar
  let ds := t.takeWhile isDigitChar
  if ds.isEmpty then none
  else
    match t.drop ds.length with
    | '.' :: t2 => some (lazyUntil questionStopAhead (t2.dropWhile isSpaceChar))
    | ')' :: t2 => some (lazyUntil questionStopAhead (t2.dropWhile isSpaceChar))
    | _ => none

/-- Scan of `re.finditer` for the numbered-question pattern: attempt the
matcher at every line start, continue after each match.  A match never ends
in a newline directly before another newline (the blank-line lookahead would
have stopped the capture one character earlier), so the position after a
match is not a line start. -/
def questionScan : Nat → Bool → List Char → List (List Char)
  | 0, _, _ => []
  | _ + 1, _, [] => []
  | fuel + 1, atLineStart, c :: rest =>
    if atLineStart then
      match matchQuestionAt (c :: rest) with
      | some (g, rest') => g :: questionScan fuel false rest'
      | none => questionScan fuel (c == '\n') rest
    else questionScan fuel (c == '\n') rest

/-- Test of the fallback line pattern `re.match(r'^\d+[\.\)]\s*.+', line)`
(service.py line 171) on a newline-free line: a nonempty digit run, `.` or
`)`, and at least one further character (`\s*` backtracks to empty, so any
nonempty remainder satisfies `\s*.+`). -/
def numberedLineTest (l : List Char) : Bool :=
  let ds := l.takeWhile isDigitChar
  !ds.isEmpty &&
    (match l.drop ds.length with
     | '.' :: r => !r.isEmpty
     | ')' :: r => !r.isEmpty
     | _ => false)

/-- Replacement `re.sub(r'^\d+[\.\)]\s*', '', line)` (service.py line 172)
on a line the fallback pattern matched: remove the digit run, the
punctuation character and the following maximal whitespace. -/
def dropNumbering (l : List Char) : List Char :=
  (((l.dropWhile isDigitChar).drop 1).dropWhile isSpaceChar)

/-- The question-list parser `_parse_generated_questions`
(service.py lines 151-177): the primary finditer pass keeps each stripped
nonempty capture; when it finds nothing, the fallback pass splits the text
into lines, de-prefixes stripped numbered lines and keeps any other nonempty
stripped line, filtering empty strings at the end. -/
def parseGeneratedQuestions (question_text : List Char) : List (List Char) :=
  let raw := questionScan (question_text.length + 1) true question_text
  let parsedMatches := (raw.map pyStrip).filter (fun q => !q.isEmpty)
  if parsedMatches.isEmpty then
    (((splitLines question_text).map (fun line =>
        let l := pyStrip line
        if numberedLineTest l then [pyStrip (dropNumbering l)]
        else if !l.isEmpty then [l]
        else [])).flatten).filter (fun q => !q.isEmpty)
  else parsedMatches

/-- Matcher, at one position, of the section capture
`{section_name}:\s*\n((?:-\s*.*\n?)+?)(?=\n[A-Z_]+:|\n\Z|$)` with MULTILINE
and DOTALL (service.py line 236): the same shape as the strengths capture,
so the maximal whitespace run after the header must end with a newline, the
capture must begin with `-` and extends to the end of the text (the DOTALL
`.*` is greedy to the end, where the MULTILINE `$` alternative succeeds). -/
def matchSectionAt (name : List Char) (s : List Char) : Option (List Char) :=
  if (name ++ ":".data).isPrefixOf s then
    let after := s.drop (name.length + 1)
    let run := after.takeWhile isSpaceChar
    let rest := after.drop run.length
    if run.getLast? == some '\n' && rest.head? == some '-' then some rest
    else none
  else none

/-- The helper `parse_section` of `analyze_interview_questions`
(service.py lines 234-243): strip the capture, split it into lines, and for
every line whose stripped form begins with `- ` append `line[2:].strip()`
(the slice is taken on the raw line, so an indented bullet keeps its
marker). -/
def parseSection (name : List Char) (content : List Char) : List (List Char) :=
  match scanFirst (matchSectionAt name) content with
  | none => []
  | some grp =>
    (splitLines (pyStrip grp)).foldl
      (fun acc line =>
        if "- ".data.isPrefixOf (pyStrip line) then acc ++ [pyStrip (line.drop 2)]
        else acc)
      []

/-- Line beginning with the all-caps header shape `[A-Z_]+:`. -/
def isAllCapsHeaderLine (l : List Char) : Bool :=
  let h := l.takeWhile (fun c => ('A' ≤ c && c ≤ 'Z') || c == '_')
  !h.isEmpty && ((l.drop h.length).head? == some ':')

/-- List-section extraction exactly as the specification words it, for
comparison with `parseSection`: after the header line, capture all
subsequent lines until the next all-caps header or end-of-text; within that
span keep the lines beginning with the bullet marker `- `, stripped of the
marker and surrounding whitespace, in order. -/
def specListSection (name : List Char) (content : List Char) : List (List Char) :=
  let lines := splitLines content
  let after := (lines.dropWhile (fun l => !(l == name ++ ":".data))).drop 1
  let span := after.takeWhile (fun l => !isAllCapsHeaderLine l)
  (span.filter (fun l => "- ".data.isPrefixOf l)).map (fun l => pyStrip (l.drop 2))

/-- The five criteria sub-headers named in the scoring prompt template
(service.py lines 26-30). -/
def knownCriteriaLabels : List (List Char) :=
  ["Technical Skills Match".data, "Experience Relevance".data,
   "Education Background".data, "Responsibilities Alignment".data,
   "Soft Skills/Communication".data]

/-- Substring occurrence: some suffix of `hay` starts with `needle`. -/
def containsSub (needle hay : List Char) : Bool :=
  hay.tails.any (fun s => needle.isPrefixOf s)

/-- Line of the mandated scoring grammar `OVERALL_SCORE: n/100`, with `n`
the value of the nonempty digit run. -/
def specOverallScoreLine (line : List Char) (n : Nat) : Prop :=
  ∃ ds : List Char,
    line = "OVERALL_SCORE: ".data ++ ds ++ "/100".data ∧
    ds ≠ [] ∧ (∀ c ∈ ds, isDigitChar c = true) ∧ natOfDigits ds = n

/-- Join a list of texts with a separator, Python's `sep.join(items)`. -/
def joinWith (sep : List Char) : List (List Char) → List Char
  | [] => []
  | [x] => x
  | x :: y :: ys => x ++ sep ++ joinWith sep (y :: ys)

/-- Numbered formatting `"\n".join(f"{i + 1}. {q}" for ...)` used to embed a
question list in a prompt (service.py lines 190 and 282). -/
def formatNumberedList (qs : List (List Char)) : List Char :=
  joinWith "\n".data (qs.enum.map (fun p => Nat.toDigits 10 (p.1 + 1) ++ ". ".data ++ p.2))

/-- Scoring prompt of `score_resume_against_jd` (service.py lines 15-50). -/
def scoringPrompt (resume_text jd_text : List Char) : List Char :=
  "You are an expert AI recruitment assistant. Your task is to meticulously analyze a candidate's resume against a specific job description.\nYou must provide a detailed compatibility analysis. It is CRUCIAL that your response STRICTLY adheres to the precise format specified below.\n\n--- Job Description (JD) ---\n".data
  ++ jd_text
  ++ "\n\n--- Candidate Resume ---\n".data
  ++ resume_text
  ++ "\n\n--- Analysis ---\nBased on the provided Job Description and Candidate Resume, deliver your analysis. PAY VERY CLOSE ATTENTION to the required output format, including all headers, sub-headers, and bullet point styling.\n\nREQUIRED OUTPUT FORMAT (Strict Adherence Necessary):\nOVERALL_SCORE: [score]/100\n\nCRITERIA_SCORES:\nTechnical Skills Match: [score]/100\nExperience Relevance: [score]/100\nEducation Background: [score]/100\nResponsibilities Alignment: [score]/100\nSoft Skills/Communication: [score]/100\n\nHARD_REQUIREMENTS_MATCH:\nLocation Match: [Yes/No/Not Specified in JD]\nFull-time Availability: [Yes/No/Not Specified in JD]\nMinimum Experience Met: [Yes/No/Not Specified in JD/Cannot Determine]\nOther Specific Requirements Met (e.g., Certifications, Specific Tools, etc.): [Yes/No/Not Specified in JD/N/A]\n\nSTRENGTHS:\n- [Strength 1: A concise point directly highlighting how the candidate meets a key JD requirement.]\n- [Strength 2: Another specific, concise point of alignment with the JD.]- [Strength n: Mention n number of strengths only if it is related to the current Job Description (not much important if not critical)]\n\nIMPORTANT INSTRUCTIONS FOR THE AI MODEL:\n1.  The section headers (OVERALL_SCORE, CRITERIA_SCORES, HARD_REQUIREMENTS_MATCH, STRENGTHS) and criteria sub-headers (e.g., Technical Skills Match, Location Match) MUST be reproduced EXACTLY as shown above.\n2.  Each score MUST be an integer followed immediately by '/100'.\n3.  Each item under HARD_REQUIREMENTS_MATCH MUST use one of the specified values: 'Yes', 'No', 'Not Specified in JD', 'Cannot Determine', 'N/A'. Use 'No' if the resume clearly does NOT meet a requirement explicitly stated in JD. Use 'Not Specified in JD' if the JD does not mention that requirement. Use 'Cannot Determine' if the JD specifies a requirement but the resume provides insufficient information to confirm. Use 'N/A' for 'Other Specific Requirements Met' if no other specific requirements are found in the JD.\n4.  Each item under STRENGTHS MUST be a bullet point starting with '- ' (a hyphen followed by a single space).\n5.  Ensure there are blank lines separating OVERALL_SCORE, CRITERIA_SCORES, HARD_REQUIREMENTS_MATCH, and STRENGTHS sections as shown in the example format.\n6.  Do NOT add any introductory or concluding sentences or phrases around these structured blocks that are not part of the bullet points themselves.\n7.  The content for strengths should be concise, professional, and directly relevant to the comparison between the resume and the job description.8.  **CRITICAL: DO NOT include any 'AREAS_FOR_IMPROVEMENT' section or similar constructive feedback. Only provide STRENGTHS.**".data

/-- Role-tagged messages of `score_resume_against_jd` (service.py lines 54-58). -/
def scoringMessages (resume_text jd_text : List Char) : List (List Char × List Char) :=
  [("system".data,
    "You are a highly precise recruitment AI. You are an expert in detailed resume analysis against job descriptions and strictly follow output formatting instructions.".data),
   ("user".data, scoringPrompt resume_text jd_text)]

/-- The function `score_resume_against_jd` (service.py lines 12-97) against
an oracle completion service: send the scoring messages, parse the response
text.  The response is parsed as received (not stripped). -/
def scoreResumeAgainstJd (complete : List (List Char × List Char) → List Char)
    (resume_text jd_text : List Char) : ScoringResult :=
  parseScoringResponse (complete (scoringMessages resume_text jd_text))

/-- Result dictionary of `analyze_interview_questions`
(service.py lines 249-255). -/
structure CoverageAnalysis where
  analysis_raw : List Char
  covered_generated_questions : List (List Char)
  uncovered_generated_questions : List (List Char)
  interviewer_own_questions : List (List Char)
  original_ai_generated_count : Nat

/-- Coverage-analysis prompt of `analyze_interview_questions`
(service.py lines 192-221). -/
def coveragePrompt (ai_questions_formatted conversation_transcript : List Char) : List Char :=
  "You are an expert interviewer and interview analysis AI. Your task is to analyze a conversation transcript against a list of pre-generated interview questions.\n\n**Instructions:**\n1.  **Identify Covered Generated Questions:** From the 'PRE-GENERATED QUESTIONS' list, identify and list     ALL questions that were clearly asked or semantically covered by the interviewer in the 'INTERVIEW TRANSCRIPT'.     The exact phrasing does not need to match, but the essence of the question from the 'PRE-GENERATED QUESTIONS' list must be clearly addressed.\n2.  **Identify Uncovered Generated Questions:** From the 'PRE-GENERATED QUESTIONS' list, identify and list     ALL questions that were *not* covered by the interviewer in the transcript.\n3.  **Identify Interviewer's Own Questions:** List any distinct questions asked by the interviewer in the     'INTERVIEW TRANSCRIPT' that are *not* semantically similar to any of the 'PRE-GENERATED QUESTIONS'.     Focus only on explicit questions ending in '?' or clear interrogative phrases from the interviewer's side.\n\n**PRE-GENERATED QUESTIONS (Exactly as provided, use these for comparison):**\n".data
  ++ ai_questions_formatted
  ++ "\n\n**INTERVIEW TRANSCRIPT:**\n".data
  ++ conversation_transcript
  ++ "\n\n**OUTPUT FORMAT (Strict Adherence):**\n\nCOVERED_GENERATED_QUESTIONS:\n- [Full text of AI-generated question 1 that was covered]\n- [Full text of AI-generated question 2 that was covered]\n...\n\nUNCOVERED_GENERATED_QUESTIONS:\n- [Full text of AI-generated question 1 that was NOT covered]\n- [Full text of AI-generated question 2 that was NOT covered]\n...\n\nINTERVIEWER_OWN_QUESTIONS:\n- [Full text of interviewer's unique question 1]\n- [Full text of interviewer's unique question 2]\n...".data

/-- Role-tagged messages of `analyze_interview_questions`
(service.py lines 225-229). -/
def coverageMessages (ai_questions_formatted conversation_transcript : List Char) :
    List (List Char × List Char) :=
  [("system".data,
    "You are a precise interview analysis AI. You categorize questions based on a given list and transcript content, strictly adhering to output formats. Do not hallucinate or create new questions for coverage analysis.".data),
   ("user".data, coveragePrompt ai_questions_formatted conversation_transcript)]

/-- The function `analyze_interview_questions` (service.py lines 180-260)
against an oracle completion service: parse the raw generated questions,
embed them numbered in the prompt, strip the response and extract the three
bullet sections. -/
def analyzeInterviewQuestions (complete : List (List Char × List Char) → List Char)
    (ai_generated_questions_text conversation_transcript : List Char) : CoverageAnalysis :=
  let qlist := parseGeneratedQuestions ai_generated_questions_text
  let content := pyStrip (complete
    (coverageMessages (formatNumberedList qlist) conversation_transcript))
  { analysis_raw := content
    covered_generated_questions := parseSection "COVERED_GENERATED_QUESTIONS".data content
    uncovered_generated_questions := parseSection "UNCOVERED_GENERATED_QUESTIONS".data content
    interviewer_own_questions := parseSection "INTERVIEWER_OWN_QUESTIONS".data content
    original_ai_generated_count := qlist.length }

/-- One parsed block of the holistic evaluation (service.py lines 362-367). -/
structure IndividualEvaluation where
  question : List Char
  response_summary : List Char
  score : Int
  rationale : List Char

/-- Result dictionary of `evaluate_candidate_responses_holistically`
(service.py lines 276-280 and 368-372). -/
structure HolisticEvaluation where
  individual_evaluations : List IndividualEvaluation
  overall_interview_score : Int
  overall_interview_summary : List Char

/-- Python's `$` with DOTALL but without MULTILINE: end of input, or just
before a single final newline. -/
def dollarNoMultiline (s : List Char) : Bool :=
  s.isEmpty || s == ['\n']

/-- Lookahead `(?=\n--- EVALUATION END ---|$)` of the overall-summary
capture (service.py line 346). -/
def summaryStop (s : List Char) : Bool :=
  "\n--- EVALUATION END ---".data.isPrefixOf s || dollarNoMultiline s

/-- Matcher, at one position, of
`Overall Summary:\s*(.*?)(?=\n--- EVALUATION END ---|$)` with DOTALL
(service.py line 346). -/
def matchSummaryAt (s : List Char) : Option (List Char) :=
  if "Overall Summary:".data.isPrefixOf s then
    some (lazyUntil summaryStop ((s.drop 16).dropWhile isSpaceChar)).1
  else none

/-- Lookahead `(?=\n---\n|--- OVERALL INTERVIEW PERFORMANCE ---|$)` of the
rationale capture of an individual-evaluation block (service.py line 354). -/
def rationaleStop (s : List Char) : Bool :=
  "\n---\n".data.isPrefixOf s ||
  "--- OVERALL INTERVIEW PERFORMANCE ---".data.isPrefixOf s ||
  dollarNoMultiline s

/-- Inner backtracking of an individual-evaluation block after
`\nResponse Summary: `: grow the lazy summary capture until
`\nScore: (\d+)/10\nRationale: ` matches, then capture the rationale lazily
up to its lookahead.  Returns (summary, score, rationale, rest). -/
def blockAfterSummary : Nat → List Char → List Char →
    Option (List Char × Int × List Char × List Char)
  | 0, _, _ => none
  | fuel + 1, acc, rem =>
    let tryHere : Option (List Char × Int × List Char × List Char) :=
      if "\nScore: ".data.isPrefixOf rem then
        let u := rem.drop 8
        let ds := u.takeWhile isDigitChar
        if !ds.isEmpty && "/10".data.isPrefixOf (u.drop ds.length) then
          let v := (u.drop ds.length).drop 3
          if "\nRationale: ".data.isPrefixOf v then
            let (rat, rest) := lazyUntil rationaleStop (v.drop 12)
            some (acc.reverse, (natOfDigits ds : Int), rat, rest)
          else none
        else none
      else none
    match tryHere with
    | some r => some r
    | none =>
      match rem with
      | [] => none
      | c :: r => blockAfterSummary fuel (c :: acc) r

/-- Outer backtracking of an individual-evaluation block after `Question: `:
grow the lazy question capture until `\nResponse Summary: ` is followed by a
successful inner match.  Returns (question, summary, score, rationale, rest). -/
def blockAfterQuestion : Nat → List Char → List Char →
    Option (List Char × List Char × Int × List Char × List Char)
  | 0, _, _ => none
  | fuel + 1, acc, rem =>
    let tryHere : Option (List Char × List Char × Int × List Char × List Char) :=
      if "\nResponse Summary: ".data.isPrefixOf rem then
        match blockAfterSummary (rem.length + 1) [] (rem.drop 19) with
        | some (rs, sc, rat, rest) => some (acc.reverse, rs, sc, rat, rest)
        | none => none
      else none
    match tryHere with
    | some r => some r
    | none =>
      match rem with
      | [] => none
      | c :: r => blockAfterQuestion fuel (c :: acc) r

/-- Matcher, at one position, of one individual-evaluation block
`Question: (.*?)\nResponse Summary: (.*?)\nScore: (\d+)/10\nRationale: (.*?)(?=\n---\n|--- OVERALL INTERVIEW PERFORMANCE ---|$)`
with DOTALL (service.py lines 353-355); the lazy groups are resolved in
backtracking order, outermost shortest first. -/
def matchBlockAt (s : List Char) : Option (IndividualEvaluation × List Char) :=
  if "Question: ".data.isPrefixOf s then
    match blockAfterQuestion (s.length + 1) [] (s.drop 10) with
    | some (q, rs, sc, rat, rest) =>
      some ({ question := pyStrip q
              response_summary := pyStrip rs
              score := sc
              rationale := pyStrip rat }, rest)
    | none => none
  else none

/-- Scan of `re.findall` for the individual-evaluation blocks: leftmost
match first, continuing after each match. -/
def blockScan : Nat → List Char → List IndividualEvaluation
  | 0, _ => []
  | _ + 1, [] => []
  | fuel + 1, c :: rest =>
    match matchBlockAt (c :: rest) with
    | some (ev, rest') => ev :: blockScan fuel rest'
    | none => blockScan fuel rest

/-- Parsing layer of `evaluate_candidate_responses_holistically`
(service.py lines 341-367), applied to the stripped response text. -/
def parseHolisticEvaluation (content : List Char) : HolisticEvaluation :=
  { individual_evaluations := blockScan (content.length + 1) content
    overall_interview_score :=
      (scanFirst (matchLabelScoreAt "Overall Score:".data "/100".data) content).getD 0
    overall_interview_summary :=
      match scanFirst matchSummaryAt content with
      | some g => pyStrip g
      | none => "N/A".data }

/-- Holistic-evaluation prompt of `evaluate_candidate_responses_holistically`
(service.py lines 284-327). -/
def holisticPrompt (questions_list_formatted conversation_transcript jd_text resume_text :
    List Char) : List Char :=
  "You are an expert interview evaluator. Your task is to meticulously evaluate the candidate's response to EACH question identified as asked during the interview. Use the provided Job Description and Candidate Resume as context for evaluation.\n\n**For each question, provide:**\n1.  The full text of the question.\n2.  A concise summary of the candidate's relevant response from the transcript.\n3.  A score for the response (out of 10), considering the following criteria:\n    -   **Relevance:** How directly did the candidate answer the question?\n    -   **Depth/Specificity:** How detailed and specific was the answer? Did it provide concrete examples?\n    -   **Technical Accuracy:** If technical, was the information accurate and well-explained?\n    -   **Clarity/Articulation:** How clear and well-articulated was the response?\n    -   **Alignment with JD/Resume:** How well did the response demonstrate skills/experience relevant to the JD and mentioned in the resume?\n4.  A **brief rationale** (1-2 sentences) for the score, highlighting strengths and weaknesses of the response.\n\n**After evaluating all individual questions, provide an overall assessment:**\n5.  An **Overall Interview Performance Score** (out of 100), based on all responses.\n6.  A **Concise Overall Summary** (2-4 sentences) of the candidate's interview performance, highlighting key strengths and areas (if any) where the interview performance could have been stronger, considering the JD and Resume.\n\n**IMPORTANT:** If a question was listed as 'asked' but no clear answer is present in the transcript for that specific question, indicate 'No clear response found' for the summary and score 0/10 with rationale.\n\n--- QUESTIONS ASKED IN INTERVIEW ---\n".data
  ++ questions_list_formatted
  ++ "\n\n--- INTERVIEW TRANSCRIPT ---\n".data
  ++ conversation_transcript
  ++ "\n\n--- JOB DESCRIPTION ---\n".data
  ++ jd_text
  ++ "\n\n--- CANDIDATE RESUME ---\n".data
  ++ resume_text
  ++ "\n\n**OUTPUT FORMAT (Strict Adherence):**\n--- EVALUATION START ---\nQuestion: [Full text of question 1]\nResponse Summary: [Concise summary of candidate's relevant answer]\nScore: X/10\nRationale: [Brief explanation for score based on criteria]\n---\nQuestion: [Full text of question 2]\nResponse Summary: [Concise summary of candidate's relevant answer]\nScore: Y/10\nRationale: [Brief explanation for score based on criteria]\n---\n...\n--- OVERALL INTERVIEW PERFORMANCE ---\nOverall Score: Z/100\nOverall Summary: [Concise 2-4 sentence summary of performance]\n--- EVALUATION END ---".data

/-- Role-tagged messages of `evaluate_candidate_responses_holistically`
(service.py lines 332-336). -/
def holisticMessages (questions_list_formatted conversation_transcript jd_text resume_text :
    List Char) : List (List Char × List Char) :=
  [("system".data,
    "You are an expert interview evaluator, highly skilled at analyzing interview transcripts, summarizing responses, and providing precise scores and rationales based on job descriptions and resumes.".data),
   ("user".data,
    holisticPrompt questions_list_formatted conversation_transcript jd_text resume_text)]

/-- The function `evaluate_candidate_responses_holistically`
(service.py lines 263-378) against an oracle completion service.  The second
component counts the completion calls performed: with an empty question list
the zero-sentinel result is returned before any call (lines 275-280),
otherwise the prompt is sent once and the stripped response parsed. -/
def evaluateCandidateResponsesHolistically
    (complete : List (List Char × List Char) → List Char)
    (all_questions_asked : List (List Char))
    (conversation_transcript jd_text resume_text : List Char) :
    HolisticEvaluation × Nat :=
  match all_questions_asked with
  | [] =>
    ({ individual_evaluations := []
       overall_interview_score := 0
       overall_interview_summary := "No questions were asked or evaluated.".data }, 0)
  | _ :: _ =>
    let content := pyStrip (complete (holisticMessages
      (formatNumberedList all_questions_asked) conversation_transcript jd_text resume_text))
    (parseHolisticEvaluation content, 1)

/-- Streamlit session state of the app (app.py lines 30-64): the analysis
result slots, the conversation history, the extracted texts and the last
content hashes of the three uploaded files.  Result blobs and hashes are
opaque strings; an empty slot or hash is `none`. -/
structure SessionState where
  jd_analysis_results : Option String
  ai_detection_results : Option String
  interview_analysis_results : Option String
  candidate_evaluation_results : Option String
  conversation_history : List (String × String)
  job_description_text : String
  candidate_resume_text : String
  last_shared_resume_hash : Option String
  last_jd_hash : Option String
  last_conversation_transcript_hash : Option String

/-- The helper `clear_all_analysis_state` (utils.py lines 18-27). -/
def clearAllAnalysisState (s : SessionState) : SessionState :=
  { s with
    jd_analysis_results := none
    ai_detection_results := none
    interview_analysis_results := none
    candidate_evaluation_results := none
    conversation_history := []
    job_description_text := ""
    candidate_resume_text := "" }

/-- The helper `clear_jd_dependent_analysis_state` (utils.py lines 29-38). -/
def clearJdDependentAnalysisState (s : SessionState) : SessionState :=
  { s with
    jd_analysis_results := none
    interview_analysis_results := none
    candidate_evaluation_results := none
    conversation_history := []
    job_description_text := "" }

/-- The helper `clear_interview_related_state` (utils.py lines 41-46). -/
def clearInterviewRelatedState (s : SessionState) : SessionState :=
  { s with
    interview_analysis_results := none
    candidate_evaluation_results := none
    conversation_history := [] }

/-- File-change detection of the app (app.py lines 86-109): a changed
resume hash clears everything and resets the other two hashes; otherwise a
changed JD hash clears the JD-dependent state; otherwise a changed
transcript hash clears the interview-related state. -/
def handleFileChanges (resumeHash jdHash transcriptHash : Option String)
    (s : SessionState) : SessionState :=
  if resumeHash ≠ s.last_shared_resume_hash then
    { clearAllAnalysisState s with
      last_shared_resume_hash := resumeHash
      last_jd_hash := none
      last_conversation_transcript_hash := none }
  else if jdHash ≠ s.last_jd_hash then
    { clearJdDependentAnalysisState s with last_jd_hash := jdHash }
  else if transcriptHash ≠ s.last_conversation_transcript_hash then
    { clearInterviewRelatedState s with
      last_conversation_transcript_hash := transcriptHash }
  else s

/-- Enumeration of the whitespace characters. -/
theorem space_char_cases (c : Char) (h : isSpaceChar c = true) :
    c = ' ' ∨ c = '\t' ∨ c = '\n' ∨ c = '\r' ∨ c = '\x0b' ∨ c = '\x0c' := by
  simpa [isSpaceChar, or_assoc] using h

/-- Digits are not whitespace. -/
theorem isDigit_not_space (c : Char) (h : isDigitChar c = true) : isSpaceChar c = false := by
  by_contra h2
  rcases space_char_cases c (by revert h2; cases isSpaceChar c <;> simp) with
    hc | hc | hc | hc | hc | hc <;> subst hc <;> exact absurd h (by decide)

/-- Head of a `dropWhile` residue fails the predicate. -/
theorem dropWhile_head?_false {α : Type} (p : α → Bool) (l : List α) (c : α)
    (h : (l.dropWhile p).head? = some c) : p c = false := by
  induction l with
  | nil => simp [List.dropWhile] at h
  | cons a t ih =>
    by_cases ha : p a = true
    · rw [List.dropWhile_cons_of_pos ha] at h
      exact ih h
    · rw [List.dropWhile_cons_of_neg ha] at h
      simp at h
      rw [← h]
      exact Bool.eq_false_iff.mpr ha

/-- A list whose head fails the predicate is unchanged by `dropWhile`. -/
theorem dropWhile_eq_self_of_head {α : Type} (p : α → Bool) (x : List α)
    (h : ∀ c, x.head? = some c → p c = false) : x.dropWhile p = x := by
  cases x with
  | nil => rfl
  | cons c t =>
    exact List.dropWhile_cons_of_neg (by simp [h c rfl])

/-- A text whose first and last characters are not whitespace is unchanged
by `pyStrip`. -/
theorem pyStrip_eq_self (x : List Char)
    (h1 : ∀ c, x.head? = some c → isSpaceChar c = false)
    (h2 : ∀ c, x.getLast? = some c → isSpaceChar c = false) : pyStrip x = x := by
  unfold pyStrip
  rw [dropWhile_eq_self_of_head _ x h1,
      dropWhile_eq_self_of_head _ x.reverse (by
        intro c hc
        rw [List.head?_reverse] at hc
        exact h2 c hc),
      List.reverse_reverse]

/-- The last character of a stripped text is not whitespace. -/
theorem pyStrip_getLast?_false (s : List Char) (c : Char)
    (h : (pyStrip s).getLast? = some c) : isSpaceChar c = false := by
  unfold pyStrip at h
  rw [List.getLast?_reverse] at h
  exact dropWhile_head?_false _ _ _ h

/-- The first character of a stripped text is not whitespace. -/
theorem pyStrip_head?_false (s : List Char) (c : Char)
    (h : (pyStrip s).head? = some c) : isSpaceChar c = false := by
  unfold pyStrip at h
  have hsplit : List.takeWhile isSpaceChar (s.dropWhile isSpaceChar).reverse ++
      (s.dropWhile isSpaceChar).reverse.dropWhile isSpaceChar =
      (s.dropWhile isSpaceChar).reverse := List.takeWhile_append_dropWhile _ _
  have hL : s.dropWhile isSpaceChar =
      ((s.dropWhile isSpaceChar).reverse.dropWhile isSpaceChar).reverse ++
      (List.takeWhile isSpaceChar (s.dropWhile isSpaceChar).reverse).reverse := by
    conv_lhs => rw [← List.reverse_reverse (s.dropWhile isSpaceChar), ← hsplit]
    rw [List.reverse_append]
  cases hRrev : ((s.dropWhile isSpaceChar).reverse.dropWhile isSpaceChar).reverse with
  | nil => rw [hRrev] at h; simp at h
  | cons d t =>
    rw [hRrev] at h
    simp at h
    rw [hRrev] at hL
    rw [← h]
    exact dropWhile_head?_false isSpaceChar s d (by rw [hL]; rfl)

/-- Stripping is idempotent. -/
theorem pyStrip_idem (s : List Char) : pyStrip (pyStrip s) = pyStrip s :=
  pyStrip_eq_self (pyStrip s) (pyStrip_head?_false s) (pyStrip_getLast?_false s)

/-- A scan whose matcher fails on every suffix finds nothing. -/
theorem scanFirst_eq_none {α : Type} (p : List Char → Option α) :
    ∀ l : List Char, (∀ s ∈ l.tails, p s = none) → scanFirst p l = none := by
  intro l
  induction l with
  | nil =>
    intro h
    exact h [] (by simp)
  | cons c rest ih =>
    intro h
    have h0 : p (c :: rest) = none := h (c :: rest) (by rw [List.tails_cons]; simp)
    unfold scanFirst
    rw [h0]
    exact ih (fun s hs => h s (by rw [List.tails_cons]; exact List.mem_cons_of_mem _ hs))

/-- A property of all matcher outputs holds of a scan's output. -/
theorem scanFirst_some_imp {α : Type} (p : List Char → Option α) (P : α → Prop)
    (hp : ∀ s v, p s = some v → P v) :
    ∀ (l : List Char) (v : α), scanFirst p l = some v → P v := by
  intro l
  induction l with
  | nil =>
    intro v h
    exact hp [] v h
  | cons c rest ih =>
    intro v h
    unfold scanFirst at h
    cases hc : p (c :: rest) with
    | some w => rw [hc] at h; cases h; exact hp _ _ hc
    | none => rw [hc] at h; exact ih v h

/-- The label-score matcher only returns nonnegative values. -/
theorem matchLabelScoreAt_nonneg (label denom s : List Char) (v : Int)
    (h : matchLabelScoreAt label denom s = some v) : 0 ≤ v := by
  unfold matchLabelScoreAt at h
  dsimp only at h
  split at h
  · split at h
    · exact absurd h (by simp)
    · split at h
      · cases h
        exact Int.natCast_nonneg _
      · exact absurd h (by simp)
  · exact absurd h (by simp)

/-- The criteria matcher only returns nonnegative scores. -/
theorem matchCriteriaAt_nonneg (s : List Char) (lbl : List Char) (v : Int) (rest : List Char)
    (h : matchCriteriaAt s = some (lbl, v, rest)) : 0 ≤ v := by
  unfold matchCriteriaAt at h
  dsimp only at h
  split at h
  · split at h
    · split at h
      · cases h
        exact Int.natCast_nonneg _
      · exact absurd h (by simp)
    · exact absurd h (by simp)
  · exact absurd h (by simp)

/-- Every score emitted by the criteria scan is nonnegative. -/
theorem criteriaScan_val_nonneg :
    ∀ (fuel : Nat) (b : Bool) (s : List Char) (lv : List Char × Int),
      lv ∈ criteriaScan fuel b s → 0 ≤ lv.2 := by
  intro fuel
  induction fuel with
  | zero => intro b s lv h; exact absurd h (by simp [criteriaScan])
  | succ n ih =>
    intro b s lv h
    cases s with
    | nil => exact absurd h (by simp [criteriaScan])
    | cons c rest =>
      unfold criteriaScan at h
      by_cases hb : b = true
      · rw [if_pos hb] at h
        cases hm : matchCriteriaAt (c :: rest) with
        | none => rw [hm] at h; exact ih _ _ _ h
        | some r =>
          obtain ⟨lbl, vv, rest'⟩ := r
          rw [hm] at h
          dsimp only at h
          rw [List.mem_cons] at h
          rcases h with h | h
          · rw [h]
            exact matchCriteriaAt_nonneg _ _ _ _ hm
          · exact ih _ _ _ h
      · rw [if_neg hb] at h
        exact ih _ _ _ h

/-- Membership after a dict insertion: the new pair or an old member. -/
theorem dictInsert_mem {α : Type} (k : List Char) (v : α)
    (d : List (List Char × α)) (q : List Char × α)
    (h : q ∈ dictInsert k v d) : q = (k, v) ∨ q ∈ d := by
  induction d with
  | nil => simpa [dictInsert] using h
  | cons kv rest ih =>
    unfold dictInsert at h
    split at h
    · rw [List.mem_cons] at h
      rcases h with h | h
      · exact Or.inl h
      · exact Or.inr (List.mem_cons_of_mem _ h)
    · rw [List.mem_cons] at h
      rcases h with h | h
      · exact Or.inr (by rw [h]; exact List.mem_cons_self _ _)
      · rcases ih h with h2 | h2
        · exact Or.inl h2
        · exact Or.inr (List.mem_cons_of_mem _ h2)

/-- Every entry of the criteria-scores dictionary has a key other than
`OVERALL_SCORE` (case-insensitively) and a nonnegative value. -/
theorem mem_parseCriteriaScores (content : List Char) (q : List Char × Int)
    (h : q ∈ parseCriteriaScores content) :
    q.1.map Char.toUpper ≠ "OVERALL_SCORE".data ∧ 0 ≤ q.2 := by
  unfold parseCriteriaScores at h
  have key : ∀ (lvs : List (List Char × Int)) (d : List (List Char × Int)),
      (∀ x ∈ d, x.1.map Char.toUpper ≠ "OVERALL_SCORE".data ∧ 0 ≤ x.2) →
      (∀ lv ∈ lvs, 0 ≤ lv.2) →
      ∀ x ∈ lvs.foldl
        (fun d lv =>
          let cleaned := pyStrip lv.1
          if cleaned.map Char.toUpper == "OVERALL_SCORE".data then d
          else dictInsert cleaned lv.2 d) d,
        x.1.map Char.toUpper ≠ "OVERALL_SCORE".data ∧ 0 ≤ x.2 := by
    intro lvs
    induction lvs with
    | nil => intro d hd _ x hx; exact hd x hx
    | cons lv rest ih =>
      intro d hd hvals x hx
      rw [List.foldl_cons] at hx
      refine ih _ ?_ (fun a ha => hvals a (List.mem_cons_of_mem _ ha)) x hx
      intro y hy
      dsimp only at hy
      by_cases hg : ((pyStrip lv.1).map Char.toUpper == "OVERALL_SCORE".data) = true
      · rw [if_pos hg] at hy
        exact hd y hy
      · rw [if_neg hg] at hy
        rcases dictInsert_mem _ _ _ _ hy with h2 | h2
        · subst h2
          refine ⟨?_, hvals lv (List.mem_cons_self _ _)⟩
          intro hcontra
          dsimp only at hcontra
          rw [hcontra] at hg
          simp at hg
        · exact hd y h2
  exact key _ [] (by intro x hx; exact absurd hx (List.not_mem_nil x))
    (fun lv hlv => criteriaScan_val_nonneg _ _ _ _ hlv) q h

/-- List prefixes test positively against their extensions. -/
theorem isPrefixOf_append_self (l r : List Char) : l.isPrefixOf (l ++ r) = true :=
  List.isPrefixOf_iff_prefix.mpr (List.prefix_append l r)

/-- A scan returns the result of a matcher that succeeds at the head. -/
theorem scanFirst_cons_some {α : Type} (p : List Char → Option α) (c : Char)
    (rest : List Char) (v : α) (h : p (c :: rest) = some v) :
    scanFirst p (c :: rest) = some v := by
  unfold scanFirst
  rw [h]

/-- The splitter never returns an empty list of lines. -/
theorem splitLines_ne_nil (l : List Char) : splitLines l ≠ [] := by
  cases l with
  | nil => simp [splitLines]
  | cons c rest =>
    unfold splitLines
    cases splitLines rest with
    | nil => simp
    | cons a b =>
      by_cases hc : (c == '\n') = true
      · simp [hc]
      · simp [hc]

/-- A newline-free text is a single line. -/
theorem splitLines_no_newline : ∀ xs : List Char, '\n' ∉ xs → splitLines xs = [xs] := by
  intro xs
  induction xs with
  | nil => intro _; rfl
  | cons c rest ih =>
    intro h
    have hcne : c ≠ '\n' := by
      intro hh
      exact h (by rw [hh]; exact List.mem_cons_self _ _)
    have hrest : '\n' ∉ rest := fun hm => h (List.mem_cons_of_mem _ hm)
    simp only [splitLines, ih hrest]
    simp [hcne]

/-- Splitting separates at the first newline. -/
theorem splitLines_append_cons : ∀ xs ys : List Char, '\n' ∉ xs →
    splitLines (xs ++ '\n' :: ys) = xs :: splitLines ys := by
  intro xs ys
  induction xs with
  | nil =>
    intro _
    show splitLines ('\n' :: ys) = [] :: splitLines ys
    cases hsl : splitLines ys with
    | nil => exact absurd hsl (splitLines_ne_nil ys)
    | cons l ls =>
      simp only [splitLines, hsl]
      simp
  | cons c rest ih =>
    intro h
    have hcne : c ≠ '\n' := by
      intro hh
      exact h (by rw [hh]; exact List.mem_cons_self _ _)
    have hrest : '\n' ∉ rest := fun hm => h (List.mem_cons_of_mem _ hm)
    show splitLines (c :: (rest ++ '\n' :: ys)) = (c :: rest) :: splitLines ys
    simp only [splitLines, ih hrest]
    simp [hcne]

/-- Unpack a boolean head condition. -/
theorem head_cond_of_all (x : List Char) (h : x.head?.all (fun c => !isSpaceChar c) = true) :
    ∀ c, x.head? = some c → isSpaceChar c = false := by
  intro c hc
  rw [hc] at h
  simpa [Option.all] using h

/-- Unpack a boolean last-character condition. -/
theorem getLast_cond_of_all (x : List Char)
    (h : x.getLast?.all (fun c => !isSpaceChar c) = true) :
    ∀ c, x.getLast? = some c → isSpaceChar c = false := by
  intro c hc
  rw [hc] at h
  simpa [Option.all] using h

/-- Unpack a boolean newline-freeness condition. -/
theorem not_mem_newline (a : List Char) (h : a.all (fun c => !(c == '\n')) = true) :
    '\n' ∉ a := by
  intro hm
  have := List.all_eq_true.mp h '\n' hm
  simp at this

/-- A text with no `HARD_REQUIREMENTS_MATCH:` substring parses to the empty
hard-requirements mapping. -/
theorem parseHardRequirements_eq_nil (content : List Char)
    (h : containsSub "HARD_REQUIREMENTS_MATCH:".data content = false) :
    parseHardRequirements content = [] := by
  unfold containsSub at h
  have h2 : ∀ s ∈ content.tails, "HARD_REQUIREMENTS_MATCH:".data.isPrefixOf s = false := by
    intro s hs
    have hnp := List.any_eq_false.mp h s hs
    cases hb : "HARD_REQUIREMENTS_MATCH:".data.isPrefixOf s with
    | false => rfl
    | true => exact absurd hb hnp
  have hnone : scanFirst matchHardReqAt content = none :=
    scanFirst_eq_none _ content (fun s hs => by simp [matchHardReqAt, h2 s hs])
  unfold parseHardRequirements
  rw [hnone]

/-- C2: calling the holistic evaluation with an empty question list returns
the zero-sentinel result (overall score 0, empty individual list, sentinel
summary) and performs no completion call, for every oracle and every
transcript, JD and resume text. -/
theorem claim_C2_empty_questions_zero_sentinel
    (complete : List (List Char × List Char) → List Char)
    (transcript jd resume : List Char) :
    evaluateCandidateResponsesHolistically complete [] transcript jd resume =
      ({ individual_evaluations := []
         overall_interview_score := 0
         overall_interview_summary := "No questions were asked or evaluated.".data }, 0) :=
  rfl

/-- C4: parsing the well-formed numbered list `1. A\n2. B\n3. C` yields
exactly the de-prefixed question texts `A`, `B`, `C` in order, of length 3. -/
theorem claim_C4_numbered_parse_concrete :
    parseGeneratedQuestions "1. A\n2. B\n3. C".data = ["A".data, "B".data, "C".data] ∧
    (parseGeneratedQuestions "1. A\n2. B\n3. C".data).length = 3 := by
  decide

/-- C5: when the completion-response text contains no
`HARD_REQUIREMENTS_MATCH:` header at all, the scoring parse does not fail:
the returned hard-requirements mapping is empty (the embedding is a total
function, so no exception path exists). -/
theorem claim_C5_missing_hard_requirements
    (complete : List (List Char × List Char) → List Char) (resume jd : List Char)
    (h : containsSub "HARD_REQUIREMENTS_MATCH:".data (complete (scoringMessages resume jd))
      = false) :
    (scoreResumeAgainstJd complete resume jd).hard_requirements_match = [] :=
  parseHardRequirements_eq_nil _ h

/-- Witness for C5 at the concrete response text `hello`. -/
theorem claim_C5_witness :
    containsSub "HARD_REQUIREMENTS_MATCH:".data "hello".data = false ∧
    (scoreResumeAgainstJd (fun _ => "hello".data) [] []).hard_requirements_match = [] :=
  ⟨by decide, claim_C5_missing_hard_requirements (fun _ => "hello".data) [] [] (by decide)⟩

/-- C6 counterexample: the criteria pattern is not applied per known label;
the unknown label `Bogus Skill` is captured as a key of the criteria-scores
mapping although it is none of the five criteria sub-headers of the prompt
template. -/
theorem claim_C6_unknown_label_counterexample :
    ("Bogus Skill".data, (55 : Int)) ∈
      (scoreResumeAgainstJd (fun _ => "Bogus Skill: 55/100".data) [] []).criteria_scores ∧
    "Bogus Skill".data ∉ knownCriteriaLabels := by
  decide

/-- C6 amended: the score pattern is applied at every line start whatever
the label; the only filtering is that a key equal (case-insensitively) to
`OVERALL_SCORE` is never inserted, so every key of the criteria-scores
mapping differs from `OVERALL_SCORE` but need not be a known label. -/
theorem claim_C6_criteria_label_filter
    (complete : List (List Char × List Char) → List Char) (resume jd : List Char)
    (q : List Char × Int)
    (h : q ∈ (scoreResumeAgainstJd complete resume jd).criteria_scores) :
    q.1.map Char.toUpper ≠ "OVERALL_SCORE".data :=
  (mem_parseCriteriaScores _ q h).1

/-- Witness for C6 at the concrete response text `Bogus Skill: 55/100`. -/
theorem claim_C6_witness :
    "Bogus Skill".data.map Char.toUpper ≠ "OVERALL_SCORE".data :=
  claim_C6_criteria_label_filter (fun _ => "Bogus Skill: 55/100".data) [] []
    ("Bogus Skill".data, 55) (by decide)

/-- C7: replacing the resume file (hash changed) resets every dependent
stage result including the AI-detection result; replacing only the JD file
resets the scoring, coverage and evaluation results and the conversation
history but leaves the AI-detection result unchanged. -/
theorem claim_C7_file_change_resets (s : SessionState) (rh jh th : Option String) :
    (rh ≠ s.last_shared_resume_hash →
      ((handleFileChanges rh jh th s).ai_detection_results = none ∧
       (handleFileChanges rh jh th s).jd_analysis_results = none ∧
       (handleFileChanges rh jh th s).interview_analysis_results = none ∧
       (handleFileChanges rh jh th s).candidate_evaluation_results = none ∧
       (handleFileChanges rh jh th s).conversation_history = [])) ∧
    (rh = s.last_shared_resume_hash → jh ≠ s.last_jd_hash →
      ((handleFileChanges rh jh th s).ai_detection_results = s.ai_detection_results ∧
       (handleFileChanges rh jh th s).jd_analysis_results = none ∧
       (handleFileChanges rh jh th s).interview_analysis_results = none ∧
       (handleFileChanges rh jh th s).candidate_evaluation_results = none ∧
       (handleFileChanges rh jh th s).conversation_history = [])) := by
  constructor
  · intro h
    simp [handleFileChanges, if_pos h, clearAllAnalysisState]
  · intro h1 h2
    have hno : ¬rh ≠ s.last_shared_resume_hash := by simpa using h1
    simp [handleFileChanges, if_neg hno, if_pos h2, clearJdDependentAnalysisState]

/-- Sample session state holding a result in every slot. -/
def sampleSessionState : SessionState :=
  { jd_analysis_results := some "scoring"
    ai_detection_results := some "detection"
    interview_analysis_results := some "coverage"
    candidate_evaluation_results := some "evaluation"
    conversation_history := [("user", "question")]
    job_description_text := "jd text"
    candidate_resume_text := "resume text"
    last_shared_resume_hash := some "r1"
    last_jd_hash := some "j1"
    last_conversation_transcript_hash := some "t1" }

/-- Witness for C7: a resume change clears the AI-detection result, a pure
JD change preserves it. -/
theorem claim_C7_witness :
    (handleFileChanges (some "r2") (some "j1") (some "t1") sampleSessionState).ai_detection_results
      = none ∧
    (handleFileChanges (some "r1") (some "j2") (some "t1") sampleSessionState).ai_detection_results
      = sampleSessionState.ai_detection_results :=
  ⟨((claim_C7_file_change_resets sampleSessionState (some "r2") (some "j1") (some "t1")).1
      (by decide)).1,
   ((claim_C7_file_change_resets sampleSessionState (some "r1") (some "j2") (some "t1")).2
      (by decide) (by decide)).1⟩

/-- C9 counterexample: the parser does not clamp scores to [0,100]; the
response `OVERALL_SCORE: 150/100` parses to an overall score of 150. -/
theorem claim_C9_score_range_counterexample :
    (scoreResumeAgainstJd (fun _ => "OVERALL_SCORE: 150/100".data) [] []).overall_score = 150 ∧
    ¬((scoreResumeAgainstJd (fun _ => "OVERALL_SCORE: 150/100".data) [] []).overall_score ≤ 100) := by
  decide

/-- C9 amended: the overall score and all criteria-score values are
nonnegative integers, but no upper bound is enforced: a declared value above
100 is returned as is (e.g. 150). -/
theorem claim_C9_score_bounds :
    (∀ (complete : List (List Char × List Char) → List Char) (resume jd : List Char),
      0 ≤ (scoreResumeAgainstJd complete resume jd).overall_score ∧
      ∀ q ∈ (scoreResumeAgainstJd complete resume jd).criteria_scores, 0 ≤ q.2) ∧
    100 < (scoreResumeAgainstJd (fun _ => "OVERALL_SCORE: 150/100".data) [] []).overall_score := by
  constructor
  · intro complete resume jd
    constructor
    · show 0 ≤ (scanFirst (matchLabelScoreAt "OVERALL_SCORE:".data "/100".data)
        (complete (scoringMessages resume jd))).getD 0
      cases hsc : scanFirst (matchLabelScoreAt "OVERALL_SCORE:".data "/100".data)
          (complete (scoringMessages resume jd)) with
      | none => simp
      | some v =>
        simpa using scanFirst_some_imp _ (fun v => 0 ≤ v)
          (fun s v hv => matchLabelScoreAt_nonneg _ _ _ _ hv) _ v hsc
    · intro q hq
      exact (mem_parseCriteriaScores _ q hq).2
  · decide

/-- Witness for C9: nonnegativity of the parsed overall score and of a
concrete criteria entry of the response `Technical Skills Match: 250/100`. -/
theorem claim_C9_witness :
    0 ≤ (scoreResumeAgainstJd (fun _ => "Technical Skills Match: 250/100".data) [] []).overall_score ∧
    0 ≤ (("Technical Skills Match".data, (250 : Int)) : List Char × Int).2 :=
  ⟨(claim_C9_score_bounds.1 (fun _ => "Technical Skills Match: 250/100".data) [] []).1,
   (claim_C9_score_bounds.1 (fun _ => "Technical Skills Match: 250/100".data) [] []).2
     ("Technical Skills Match".data, 250) (by decide)⟩

/-- C10: on every input text, every element of the parsed question list is
nonempty and carries no leading or trailing whitespace (it is fixed by
stripping); the empty string never appears, in either the primary pass or
the fallback pass. -/
theorem claim_C10_questions_stripped_nonempty (t q : List Char)
    (h : q ∈ parseGeneratedQuestions t) : q ≠ [] ∧ pyStrip q = q := by
  unfold parseGeneratedQuestions at h
  dsimp only at h
  split at h
  · rw [List.mem_filter] at h
    obtain ⟨hmem, hne⟩ := h
    have hq_ne : q ≠ [] := by simpa [List.isEmpty_iff] using hne
    refine ⟨hq_ne, ?_⟩
    rw [List.mem_flatten] at hmem
    obtain ⟨l, hl, hql⟩ := hmem
    rw [List.mem_map] at hl
    obtain ⟨line, _, hfl⟩ := hl
    subst hfl
    split at hql
    · rw [List.mem_singleton] at hql
      rw [hql]
      exact pyStrip_idem _
    · split at hql
      · rw [List.mem_singleton] at hql
        rw [hql]
        exact pyStrip_idem _
      · exact absurd hql (List.not_mem_nil q)
  · rw [List.mem_filter] at h
    obtain ⟨hmem, hne⟩ := h
    have hq_ne : q ≠ [] := by simpa [List.isEmpty_iff] using hne
    refine ⟨hq_ne, ?_⟩
    rw [List.mem_map] at hmem
    obtain ⟨g, _, hg⟩ := hmem
    rw [← hg]
    exact pyStrip_idem _

/-- Witness for C10 at the concrete input `1. A`. -/
theorem claim_C10_witness :
    "A".data ≠ [] ∧ pyStrip "A".data = "A".data :=
  claim_C10_questions_stripped_nonempty "1. A".data "A".data (by decide)

/-- The label-score matcher on a text that begins with the label, one space,
a digit run and `/100`: it extracts exactly that digit run's value. -/
theorem matchLabelScoreAt_exact (label : List Char) (ds post : List Char)
    (h1 : ds ≠ []) (h2 : ds.all isDigitChar = true) :
    matchLabelScoreAt label "/100".data (label ++ (' ' :: (ds ++ ("/100".data ++ post))))
      = some (natOfDigits ds : Int) := by
  obtain ⟨c, ds', rfl⟩ : ∃ c ds', ds = c :: ds' := by
    cases ds with
    | nil => exact absurd rfl h1
    | cons c d => exact ⟨c, d, rfl⟩
  have hc : isDigitChar c = true := by
    have := List.all_eq_true.mp h2 c (List.mem_cons_self _ _)
    simpa using this
  have hds' : ∀ x ∈ ds', isDigitChar x = true := by
    intro x hx
    exact List.all_eq_true.mp h2 x (List.mem_cons_of_mem _ hx)
  unfold matchLabelScoreAt
  rw [if_pos (isPrefixOf_append_self label _)]
  dsimp only
  rw [List.drop_left' rfl]
  rw [List.dropWhile_cons_of_pos (show isSpaceChar ' ' = true from rfl)]
  rw [show ((c :: ds') ++ ("/100".data ++ post)) = c :: (ds' ++ ("/100".data ++ post)) from rfl]
  rw [List.dropWhile_cons_of_neg (by rw [isDigit_not_space c hc]; simp)]
  rw [List.takeWhile_cons_of_pos hc]
  rw [List.takeWhile_append_of_pos hds']
  rw [show ("/100".data ++ post) = '/' :: ("100".data ++ post) from rfl]
  rw [List.takeWhile_cons_of_neg (show ¬isDigitChar '/' = true by decide)]
  rw [List.append_nil]
  simp only [List.isEmpty_cons, Bool.false_eq_true, if_false]
  rw [show (c :: (ds' ++ '/' :: (['1', '0', '0'] ++ post)))
        = ((c :: ds') ++ ('/' :: (['1', '0', '0'] ++ post))) from rfl]
  rw [List.drop_left' rfl]
  rw [if_pos (show (['/', '1', '0', '0'].isPrefixOf ('/' :: (['1', '0', '0'] ++ post))) = true
        from isPrefixOf_append_self ['/', '1', '0', '0'] post)]

/-- C1 counterexample: for the scoring-response text whose STRENGTHS section
is the single bullet `- Strong Python background`, the returned
strengths_text keeps the hyphen-space bullet marker, so it is not the
claimed `Strong Python background`. -/
theorem claim_C1_strengths_counterexample :
    (scoreResumeAgainstJd (fun _ => "STRENGTHS:\n- Strong Python background".data)
      [] []).strengths_text = "- Strong Python background".data ∧
    (scoreResumeAgainstJd (fun _ => "STRENGTHS:\n- Strong Python background".data)
      [] []).strengths_text ≠ "Strong Python background".data := by
  decide

/-- C1 amended: for every scoring-response text of the form
`STRENGTHS:\n- <s>` with `s` nonempty and not ending in whitespace, the
returned strengths_text is `- <s>`: the bullet marker is retained, only
surrounding whitespace is stripped. -/
theorem claim_C1_strengths_bullet_retained (s : List Char) (h1 : s ≠ [])
    (h2 : s.getLast?.all (fun c => !isSpaceChar c) = true) :
    (scoreResumeAgainstJd (fun _ => "STRENGTHS:\n- ".data ++ s) [] []).strengths_text =
      "- ".data ++ s := by
  have hscan : parseStrengthsText ("STRENGTHS:\n- ".data ++ s) = pyStrip ('-' :: ' ' :: s) := rfl
  have hfix : pyStrip ('-' :: ' ' :: s) = '-' :: ' ' :: s := by
    apply pyStrip_eq_self
    · intro c hc
      simp at hc
      rw [← hc]
      rfl
    · intro c hc
      have hgl : ('-' :: ' ' :: s).getLast? = s.getLast? := by
        rw [show ('-' :: ' ' :: s) = ['-', ' '] ++ s from rfl, List.getLast?_append]
        cases hg : s.getLast? with
        | none => exact absurd (List.getLast?_eq_none_iff.mp hg) h1
        | some d => rfl
      rw [hgl] at hc
      exact getLast_cond_of_all s h2 c hc
  exact hscan.trans hfix

/-- Witness for C1 at the bullet content `Strong Python background`. -/
theorem claim_C1_witness :
    "Strong Python background".data ≠ [] ∧
    (scoreResumeAgainstJd (fun _ => "STRENGTHS:\n- ".data ++ "Strong Python background".data)
      [] []).strengths_text = "- ".data ++ "Strong Python background".data :=
  ⟨by decide,
   claim_C1_strengths_bullet_retained "Strong Python background".data (by decide) (by decide)⟩

/-- C3 counterexample: the text `OVERALL_SCORE: 1/100\nOVERALL_SCORE: 2/100`
contains a line matching the mandated grammar with value 2, yet the parsed
overall score is the first occurrence's value 1, not 2. -/
theorem claim_C3_overall_score_counterexample :
    "OVERALL_SCORE: 2/100".data ∈
      splitLines "OVERALL_SCORE: 1/100\nOVERALL_SCORE: 2/100".data ∧
    specOverallScoreLine "OVERALL_SCORE: 2/100".data 2 ∧
    (scoreResumeAgainstJd (fun _ => "OVERALL_SCORE: 1/100\nOVERALL_SCORE: 2/100".data)
      [] []).overall_score ≠ 2 := by
  refine ⟨by decide, ⟨"2".data, by decide, by decide, by decide, by decide⟩, by decide⟩

/-- C3 amended: the overall score equals the integer of the first (leftmost)
occurrence of the pattern `OVERALL_SCORE: <digits>/100` — in particular any
text beginning with `OVERALL_SCORE: n/100` yields n — and defaults to 0
whenever no position of the text matches the pattern. -/
theorem claim_C3_overall_score_first_occurrence :
    (∀ ds post : List Char, ds ≠ [] → ds.all isDigitChar = true →
      (scoreResumeAgainstJd (fun _ => "OVERALL_SCORE: ".data ++ (ds ++ ("/100".data ++ post)))
        [] []).overall_score = (natOfDigits ds : Int)) ∧
    (∀ t : List Char,
      (∀ s ∈ t.tails, matchLabelScoreAt "OVERALL_SCORE:".data "/100".data s = none) →
      (scoreResumeAgainstJd (fun _ => t) [] []).overall_score = 0) := by
  constructor
  · intro ds post h1 h2
    have hmatch : matchLabelScoreAt "OVERALL_SCORE:".data "/100".data
        ("OVERALL_SCORE: ".data ++ (ds ++ ("/100".data ++ post)))
        = some (natOfDigits ds : Int) :=
      matchLabelScoreAt_exact "OVERALL_SCORE:".data ds post h1 h2
    have hsc : scanFirst (matchLabelScoreAt "OVERALL_SCORE:".data "/100".data)
        ("OVERALL_SCORE: ".data ++ (ds ++ ("/100".data ++ post)))
        = some (natOfDigits ds : Int) :=
      scanFirst_cons_some _ _ _ _ hmatch
    show (scanFirst (matchLabelScoreAt "OVERALL_SCORE:".data "/100".data)
        ("OVERALL_SCORE: ".data ++ (ds ++ ("/100".data ++ post)))).getD 0 = (natOfDigits ds : Int)
    rw [hsc]
    rfl
  · intro t h
    show (scanFirst (matchLabelScoreAt "OVERALL_SCORE:".data "/100".data) t).getD 0 = 0
    rw [scanFirst_eq_none _ t h]
    rfl

/-- Witness for C3: the text beginning `OVERALL_SCORE: 87/100` parses to 87
and a patternless text parses to 0. -/
theorem claim_C3_witness :
    (scoreResumeAgainstJd (fun _ => "OVERALL_SCORE: ".data ++ ("87".data ++ ("/100".data ++ [])))
      [] []).overall_score = (natOfDigits "87".data : Int) ∧
    (scoreResumeAgainstJd (fun _ => "hello".data) [] []).overall_score = 0 :=
  ⟨claim_C3_overall_score_first_occurrence.1 "87".data [] (by decide) (by decide),
   claim_C3_overall_score_first_occurrence.2 "hello".data (by decide)⟩

/-- C8 counterexample: the section capture does not stop at the next
all-caps header: on a text holding a COVERED section with bullet `A`
followed by an UNCOVERED section with bullet `B`, `parse_section` for the
COVERED section returns both `A` and `B`, while the specification's
list-section extraction returns only `A`. -/
theorem claim_C8_parse_section_counterexample :
    parseSection "COVERED_GENERATED_QUESTIONS".data
      "COVERED_GENERATED_QUESTIONS:\n- A\nUNCOVERED_GENERATED_QUESTIONS:\n- B".data
      = ["A".data, "B".data] ∧
    specListSection "COVERED_GENERATED_QUESTIONS".data
      "COVERED_GENERATED_QUESTIONS:\n- A\nUNCOVERED_GENERATED_QUESTIONS:\n- B".data
      = ["A".data] := by
  decide

/-- C8 amended: the capture of `parse_section` runs from the first bullet
after the header to the end of the text (not until the next all-caps
header); within that span every line whose stripped form begins with `- `
contributes `line[2:].strip()`, in order — so a later section's bullets are
included. -/
theorem claim_C8_parse_section_spans_to_end (a b : List Char)
    (ha0 : a ≠ []) (ha1 : a.all (fun c => !(c == '\n')) = true)
    (ha2 : a.head?.all (fun c => !isSpaceChar c) = true)
    (ha3 : a.getLast?.all (fun c => !isSpaceChar c) = true)
    (hb0 : b ≠ []) (hb1 : b.all (fun c => !(c == '\n')) = true)
    (hb2 : b.head?.all (fun c => !isSpaceChar c) = true)
    (hb3 : b.getLast?.all (fun c => !isSpaceChar c) = true) :
    parseSection "COVERED_GENERATED_QUESTIONS".data
      ("COVERED_GENERATED_QUESTIONS:\n- ".data ++
        (a ++ ("\nUNCOVERED_GENERATED_QUESTIONS:\n- ".data ++ b))) = [a, b] := by
  have hnla : '\n' ∉ ('-' :: ' ' :: a) := by
    intro hm
    simp [List.mem_cons] at hm
    exact not_mem_newline a ha1 hm
  have hnlb : '\n' ∉ ('-' :: ' ' :: b) := by
    intro hm
    simp [List.mem_cons] at hm
    exact not_mem_newline b hb1 hm
  obtain ⟨bd, hbd⟩ : ∃ d, b.getLast? = some d := by
    cases hg : b.getLast? with
    | none => exact absurd (List.getLast?_eq_none_iff.mp hg) hb0
    | some d => exact ⟨d, rfl⟩
  obtain ⟨ad, had⟩ : ∃ d, a.getLast? = some d := by
    cases hg : a.getLast? with
    | none => exact absurd (List.getLast?_eq_none_iff.mp hg) ha0
    | some d => exact ⟨d, rfl⟩
  have hadns : isSpaceChar ad = false := getLast_cond_of_all a ha3 ad had
  have hbdns : isSpaceChar bd = false := getLast_cond_of_all b hb3 bd hbd
  have hscan : scanFirst (matchSectionAt "COVERED_GENERATED_QUESTIONS".data)
      ("COVERED_GENERATED_QUESTIONS:\n- ".data ++
        (a ++ ("\nUNCOVERED_GENERATED_QUESTIONS:\n- ".data ++ b)))
      = some ('-' :: ' ' :: (a ++ ("\nUNCOVERED_GENERATED_QUESTIONS:\n- ".data ++ b))) :=
    scanFirst_cons_some _ _ _ _ rfl
  unfold parseSection
  rw [hscan]
  dsimp only
  have hstripg : pyStrip ('-' :: ' ' :: (a ++ ("\nUNCOVERED_GENERATED_QUESTIONS:\n- ".data ++ b)))
      = '-' :: ' ' :: (a ++ ("\nUNCOVERED_GENERATED_QUESTIONS:\n- ".data ++ b)) := by
    apply pyStrip_eq_self
    · intro c hc
      simp at hc
      rw [← hc]
      rfl
    · intro c hc
      rw [show ('-' :: ' ' :: (a ++ ("\nUNCOVERED_GENERATED_QUESTIONS:\n- ".data ++ b)))
            = ['-', ' '] ++ (a ++ ("\nUNCOVERED_GENERATED_QUESTIONS:\n- ".data ++ b)) from rfl,
          List.getLast?_append, List.getLast?_append, List.getLast?_append, hbd] at hc
      simp at hc
      rw [← hc]
      exact hbdns
  rw [hstripg]
  rw [show ('-' :: ' ' :: (a ++ ("\nUNCOVERED_GENERATED_QUESTIONS:\n- ".data ++ b)))
        = (('-' :: ' ' :: a) ++ ('\n' :: ("UNCOVERED_GENERATED_QUESTIONS:\n- ".data ++ b))) from rfl]
  rw [splitLines_append_cons _ _ hnla]
  rw [show ("UNCOVERED_GENERATED_QUESTIONS:\n- ".data ++ b)
        = ("UNCOVERED_GENERATED_QUESTIONS:".data ++ ('\n' :: ('-' :: ' ' :: b))) from rfl]
  rw [splitLines_append_cons _ _ (by decide)]
  rw [splitLines_no_newline _ hnlb]
  simp only [List.foldl_cons, List.foldl_nil]
  have hstrip1 : pyStrip ('-' :: ' ' :: a) = '-' :: ' ' :: a := by
    apply pyStrip_eq_self
    · intro c hc
      simp at hc
      rw [← hc]
      rfl
    · intro c hc
      rw [show ('-' :: ' ' :: a) = ['-', ' '] ++ a from rfl, List.getLast?_append, had] at hc
      simp at hc
      rw [← hc]
      exact hadns
  have hstrip3 : pyStrip ('-' :: ' ' :: b) = '-' :: ' ' :: b := by
    apply pyStrip_eq_self
    · intro c hc
      simp at hc
      rw [← hc]
      rfl
    · intro c hc
      rw [show ('-' :: ' ' :: b) = ['-', ' '] ++ b from rfl, List.getLast?_append, hbd] at hc
      simp at hc
      rw [← hc]
      exact hbdns
  rw [hstrip1]
  rw [if_pos (show ("- ".data.isPrefixOf ('-' :: ' ' :: a)) = true
        from isPrefixOf_append_self "- ".data a)]
  rw [if_neg (show ¬("- ".data.isPrefixOf (pyStrip "UNCOVERED_GENERATED_QUESTIONS:".data)) = true
        by decide)]
  rw [hstrip3]
  rw [if_pos (show ("- ".data.isPrefixOf ('-' :: ' ' :: b)) = true
        from isPrefixOf_append_self "- ".data b)]
  have hdropa : pyStrip (('-' :: ' ' :: a).drop 2) = a :=
    pyStrip_eq_self a (head_cond_of_all a ha2) (getLast_cond_of_all a ha3)
  have hdropb : pyStrip (('-' :: ' ' :: b).drop 2) = b :=
    pyStrip_eq_self b (head_cond_of_all b hb2) (getLast_cond_of_all b hb3)
  rw [hdropa, hdropb]
  simp

/-- Witness for C8 at the bullet contents `A` and `B`. -/
theorem claim_C8_witness :
    parseSection "COVERED_GENERATED_QUESTIONS".data
      ("COVERED_GENERATED_QUESTIONS:\n- ".data ++
        ("A".data ++ ("\nUNCOVERED_GENERATED_QUESTIONS:\n- ".data ++ "B".data)))
      = ["A".data, "B".data] :=
  claim_C8_parse_section_spans_to_end "A".data "B".data (by decide) (by decide) (by decide)
    (by decide) (by decide) (by decide) (by decide) (by decide)

end HRAgent
